import Mathlib

/-!
Formal model of the Flask backend in `app.py` (repository `axs_web`).

The source is a single-file Flask application with:
* a standardized response class `MKTResponse` with `success` / `error`
  constructors and a `to_dict` serializer;
* a `GoogleSheetsService` holder initialized with a credentials file path
  and a fixed list of OAuth scopes;
* a sheet-flattening routine `get_sheet_data` turning a 2-D cell grid into a
  list of header-keyed row dictionaries;
* two HTTP handlers, `get_node_config` (GET) and `combined_process` (POST),
  proxying a Node.js configuration service;
* error handlers, in particular the catch-all `handle_exception`.

JSON documents are embedded as the inductive `Json`; Python dictionaries
produced from JSON have unique keys, so object lookup is association-list
lookup.  Python expressions that can raise (`.get` on a non-dict, `len` of a
non-sized value, `<=` on mismatched types) are embedded as `Except String`
computations whose error string is the Python exception text, since the code
under scrutiny returns `str(e)` on some paths.
-/

inductive Json where
  | null
  | bool (b : Bool)
  | num (n : Int)
  | str (s : String)
  | arr (elems : List Json)
  | obj (fields : List (String × Json))

namespace Json

/-- Lookup of a key in a JSON object (Python dict produced by `json.loads`
has unique keys, so first match is the binding). Non-objects have no keys. -/
def lookup : Json → String → Option Json
  | .obj fields, key => fields.lookup key
  | _, _ => none

/-- The list of keys of a JSON object. -/
def keys : Json → List String
  | .obj fields => fields.map Prod.fst
  | _ => []

end Json

/-- Python `value.get(key, default)`: succeeds on a dict, raises
`AttributeError` otherwise (`None.get` gives the NoneType message). -/
def pyGet (v : Json) (key : String) (dflt : Json) : Except String Json :=
  match v with
  | .obj fields => .ok ((fields.lookup key).getD dflt)
  | .null => .error "\x27NoneType\x27 object has no attribute \x27get\x27"
  | _ => .error "object has no attribute \x27get\x27"

/-- Python `len(value)` on a JSON value: defined for arrays, strings and
dicts, a `TypeError` otherwise. -/
def pyLen (v : Json) : Except String Int :=
  match v with
  | .arr elems => .ok elems.length
  | .str s => .ok s.length
  | .obj fields => .ok fields.length
  | _ => .error "object has no len()"

/-- Python `a <= b` on JSON scalars: numeric comparison (bools coerce to
0/1), a `TypeError` on anything else. -/
def pyLe (a b : Json) : Except String Bool :=
  let toInt : Json → Option Int := fun v =>
    match v with
    | .num n => some n
    | .bool b => some (if b then 1 else 0)
    | _ => none
  match toInt a, toInt b with
  | some x, some y => .ok (decide (x ≤ y))
  | _, _ => .error "\x27<=\x27 not supported between instances"

/-- Outcome of `requests.get` against the upstream Node.js service: either a
response carrying an HTTP status and an already-parsed JSON body, or a raised
`requests.exceptions.RequestException` with message `msg`. -/
inductive UpstreamResult where
  | response (status : Nat) (body : Json)
  | exception (msg : String)

/-- The standardized response class `MKTResponse` (app.py lines 45-83). -/
structure MKTResponse where
  EsError : Bool
  ErrorCode : Json
  Message : Json
  Result : Json

namespace MKTResponse

/-- Python `MKTResponse.success(result, message="Operación exitosa")`. -/
def success (result : Json) (message : Json) : MKTResponse :=
  ⟨false, .str "0", message, result⟩

/-- Python `MKTResponse.error(error_code, message, result=None)`. -/
def error (error_code : Json) (message : Json) (result : Json) : MKTResponse :=
  ⟨true, error_code, message, result⟩

/-- Method `to_dict`: the serialized four-field envelope. -/
def to_dict (r : MKTResponse) : Json :=
  .obj [("EsError", .bool r.EsError), ("ErrorCode", r.ErrorCode),
        ("Message", r.Message), ("Result", r.Result)]

end MKTResponse

/-- The GET handler `get_node_config` (app.py lines 196-221), as a function
of the upstream call's outcome.  Returns the JSON body and HTTP status that
`jsonify(...), status` produces. -/
def get_node_config (upstream : UpstreamResult) : Json × Nat :=
  match upstream with
  | .response status body =>
    if status = 200 then
      (.obj [("success", .bool true), ("node_config", body)], 200)
    else
      (.obj [("success", .bool false),
             ("error", .str ("Node.js respondió con status " ++ toString status))],
       status)
  | .exception msg =>
    (.obj [("success", .bool false),
           ("error", .str ("Error al conectar con Node.js: " ++ msg))],
     503)

/-- The POST handler `combined_process` (app.py lines 223-265), as a function
of the parsed request body (`request.get_json()`, which may itself raise) and
the upstream call's outcome.  The trailing `except Exception` clause turns any
raised exception into a `success: False` envelope carrying `str(e)` with
status 500. -/
def combined_process (body : Except String Json) (upstream : UpstreamResult) :
    Json × Nat :=
  let run : Except String (Json × Nat) :=
    match body with
    | .error e => .error e
    | .ok data =>
      match upstream with
      | .exception msg => .error msg
      | .response status node_config =>
        if status ≠ 200 then
          .ok (.obj [("success", .bool false),
                     ("error", .str "No se pudo obtener configuración de Node.js")],
               503)
        else
          match pyGet node_config "max_connections" (.num 100) with
          | .error e => .error e
          | .ok max_items =>
            match pyGet data "items" (.arr []) with
            | .error e => .error e
            | .ok items =>
              match pyLen items with
              | .error e => .error e
              | .ok n =>
                match pyLe (.num n) max_items with
                | .error e => .error e
                | .ok within =>
                  .ok (.obj [("success", .bool true),
                             ("result", .obj [("data", data),
                                              ("max_items_allowed", max_items),
                                              ("items_processed", .num n),
                                              ("within_limits", .bool within)]),
                             ("node_config_used", node_config)],
                       200)
  match run with
  | .ok r => r
  | .error msg => (.obj [("success", .bool false), ("error", .str msg)], 500)

/-- The catch-all error handler `handle_exception` (app.py lines 287-294):
logs and returns a fixed generic envelope with HTTP 500, never echoing the
exception's own text. -/
def handle_exception (_excText : String) : Json × Nat :=
  (.obj [("success", .bool false), ("error", .str "Error inesperado en el servidor")], 500)

/-! ## Google Sheets service and the sheet-flattening routine -/

/-- The spreadsheet read-only scope requested by the service. -/
def spreadsheetsReadonlyScope : String :=
  "https://www.googleapis.com/auth/spreadsheets.readonly"

/-- The full Drive read-only scope requested by the service. -/
def driveReadonlyScope : String :=
  "https://www.googleapis.com/auth/drive.readonly"

/-- The Google Drive *metadata-only* read scope.  This URL does not appear in
the source; it is stated here only to compare against the scopes the code
actually requests. -/
def driveMetadataReadonlyScope : String :=
  "https://www.googleapis.com/auth/drive.metadata.readonly"

/-- The `GoogleSheetsService` object state (app.py lines 89-102). -/
structure GoogleSheetsService where
  credentials_file : String
  client : Option Unit
  scopes : List String

/-- Python `GoogleSheetsService.__init__(credentials_file='credentials.json')`:
stores the credentials path, a `None` client, and the fixed scope list. -/
def GoogleSheetsService.init (credentials_file : String) : GoogleSheetsService :=
  ⟨credentials_file, none, [spreadsheetsReadonlyScope, driveReadonlyScope]⟩

/-- Python `row[i] if i < len(row) else ""`. -/
def cellAt (row : List String) (i : Nat) : String :=
  (row[i]?).getD ""

/-- A Python dict keyed by strings, as the lookup function it defines. -/
def emptyDict : String → Option String := fun _ => none

/-- Python `d[k] = v`: the binding for `k` is replaced, others are kept. -/
def dictInsert (d : String → Option String) (k v : String) :
    String → Option String :=
  fun q => if q = k then some v else d q

/-- The loop body of `get_sheet_data`'s row conversion, carrying the running
position `i` of `enumerate(headers)`:
`for i, header in enumerate(headers): row_dict[header] = row[i] if i < len(row) else ""`. -/
def rowDictAux (row : List String) : List String → Nat →
    (String → Option String) → (String → Option String)
  | [], _, d => d
  | header :: rest, i, d =>
    rowDictAux row rest (i + 1) (dictInsert d header (cellAt row i))

/-- The dictionary `row_dict` built for one data row (app.py lines 155-157). -/
def rowDict (headers row : List String) : String → Option String :=
  rowDictAux row headers 0 emptyDict

/-- Index of the rightmost occurrence of `q` in the list, if any. -/
def lastIdxFrom (q : String) : List String → Option Nat
  | [] => none
  | h :: t =>
    match lastIdxFrom q t with
    | some j => some (j + 1)
    | none => if h = q then some 0 else none

/-- Result of `get_sheet_data` (app.py lines 116-172): the empty-sheet
dictionary, the normal dictionary, or the `{"error": str(e)}` dictionary. -/
inductive SheetResult where
  | empty (headers : List String) (total : Nat) (errorResponse : Json)
  | ok (sheet_name : String) (headers : List String)
      (inventoryList : List (String → Option String))
      (errorResponse : Json) (total : Nat)
  | fail (error : String)

/-- The flattening core of `get_sheet_data`, as a function of the worksheet
title and the grid returned by `worksheet.get_all_values()`.  The sheet-opening
and worksheet-selection calls, which only determine those two inputs (or raise,
producing `SheetResult.fail`), are abstracted away. -/
def get_sheet_data (title : String) (all_values : List (List String)) :
    SheetResult :=
  match all_values with
  | [] =>
    .empty [] 0 (MKTResponse.error (.num (-1)) (.str "sin datos") .null).to_dict
  | headers :: rows =>
    .ok title headers (rows.map fun row => rowDict headers row)
      (MKTResponse.success (.str "OK") (.str "Operación exitosa")).to_dict
      rows.length

/-! ## Process state: the handlers as state-passing functions

The only mutable process-wide object besides the startup configuration is
`sheets_service`, whose `client` field `connect()` can overwrite.  The two
Node.js proxy handlers are embedded as functions that receive this state and
return the possibly-updated state next to their response; neither handler's
body mentions the state, mirroring that the source handlers read and write no
shared mutable resource. -/

structure AppState where
  sheetsClient : Option Unit

/-- Handler `get_node_config` as a state-passing function. -/
def get_node_config_run (σ : AppState) (upstream : UpstreamResult) :
    AppState × (Json × Nat) :=
  (σ, get_node_config upstream)

/-- Handler `combined_process` as a state-passing function. -/
def combined_process_run (σ : AppState) (body : Except String Json)
    (upstream : UpstreamResult) : AppState × (Json × Nat) :=
  (σ, combined_process body upstream)

/-! ## Lemmas about the row dictionary -/

/-- Unfolding the conversion loop: the dictionary built from position `i`
binds `q` to the cell at `i` plus the rightmost occurrence of `q` among the
remaining headers, and falls back to the incoming dictionary otherwise. -/
theorem rowDictAux_lookup (row : List String) (hs : List String) :
    ∀ (i : Nat) (d : String → Option String) (q : String),
      rowDictAux row hs i d q =
        match lastIdxFrom q hs with
        | some j => some (cellAt row (i + j))
        | none => d q := by
  induction hs with
  | nil => intro i d q; rfl
  | cons h t ih =>
    intro i d q
    show rowDictAux row t (i + 1) (dictInsert d h (cellAt row i)) q = _
    rw [ih]
    cases hlt : lastIdxFrom q t with
    | some j =>
      have harith : i + 1 + j = i + (j + 1) := by omega
      simp [lastIdxFrom, hlt, harith]
    | none =>
      simp only [lastIdxFrom, hlt, dictInsert]
      by_cases hq : q = h
      · subst hq
        simp
      · simp [hq, Ne.symm hq]

/-- Lookup in `row_dict` is exactly the cell at the rightmost occurrence of the
queried header, and is undefined for strings that are not headers. -/
theorem rowDict_lookup (headers row : List String) (q : String) :
    rowDict headers row q =
      match lastIdxFrom q headers with
      | some j => some (cellAt row j)
      | none => none := by
  show rowDictAux row headers 0 emptyDict q = _
  rw [rowDictAux_lookup]
  cases lastIdxFrom q headers with
  | some j => simp
  | none => rfl

theorem lastIdxFrom_getq (q : String) :
    ∀ hs (j : Nat), lastIdxFrom q hs = some j → hs[j]? = some q := by
  intro hs
  induction hs with
  | nil => intro j h; simp [lastIdxFrom] at h
  | cons h t ih =>
    intro j hj
    unfold lastIdxFrom at hj
    cases hlt : lastIdxFrom q t with
    | some j' =>
      rw [hlt] at hj
      cases hj
      rw [List.getElem?_cons_succ]
      exact ih j' hlt
    | none =>
      rw [hlt] at hj
      by_cases hq : h = q
      · rw [if_pos hq] at hj
        cases hj
        rw [List.getElem?_cons_zero, hq]
      · rw [if_neg hq] at hj
        cases hj

theorem lastIdxFrom_none (q : String) :
    ∀ hs, lastIdxFrom q hs = none → ∀ k : Nat, hs[k]? ≠ some q := by
  intro hs
  induction hs with
  | nil => intro _ k h; simp at h
  | cons h t ih =>
    intro hnone k
    unfold lastIdxFrom at hnone
    cases hlt : lastIdxFrom q t with
    | some j => rw [hlt] at hnone; cases hnone
    | none =>
      rw [hlt] at hnone
      by_cases hq : h = q
      · rw [if_pos hq] at hnone; cases hnone
      · cases k with
        | zero =>
          rw [List.getElem?_cons_zero]
          intro hcontra
          exact hq (Option.some.inj hcontra)
        | succ k' =>
          rw [List.getElem?_cons_succ]
          exact ih hlt k'

theorem lastIdxFrom_maximal (q : String) :
    ∀ hs (j : Nat), lastIdxFrom q hs = some j → ∀ k : Nat, j < k → hs[k]? ≠ some q := by
  intro hs
  induction hs with
  | nil => intro j h; simp [lastIdxFrom] at h
  | cons h t ih =>
    intro j hj k hk
    unfold lastIdxFrom at hj
    cases hlt : lastIdxFrom q t with
    | some j' =>
      rw [hlt] at hj
      cases hj
      cases k with
      | zero => exact absurd hk (Nat.not_lt_zero _).elim
      | succ k' =>
        rw [List.getElem?_cons_succ]
        exact ih j' hlt k' (Nat.lt_of_succ_lt_succ hk)
    | none =>
      rw [hlt] at hj
      by_cases hq : h = q
      · rw [if_pos hq] at hj
        cases hj
        cases k with
        | zero => exact absurd hk (Nat.lt_irrefl 0)
        | succ k' =>
          rw [List.getElem?_cons_succ]
          exact lastIdxFrom_none q t hlt k'
      · rw [if_neg hq] at hj
        cases hj

theorem lastIdxFrom_lower (q : String) :
    ∀ hs (i : Nat), hs[i]? = some q → ∃ j, i ≤ j ∧ lastIdxFrom q hs = some j := by
  intro hs
  induction hs with
  | nil => intro i h; simp at h
  | cons h t ih =>
    intro i hi
    cases i with
    | zero =>
      rw [List.getElem?_cons_zero] at hi
      have hh : h = q := Option.some.inj hi
      cases hlt : lastIdxFrom q t with
      | some j' =>
        exact ⟨j' + 1, Nat.zero_le _, by simp [lastIdxFrom, hlt]⟩
      | none =>
        exact ⟨0, Nat.le_refl 0, by simp [lastIdxFrom, hlt, hh]⟩
    | succ i' =>
      rw [List.getElem?_cons_succ] at hi
      obtain ⟨j', hij, hj⟩ := ih i' hi
      exact ⟨j' + 1, Nat.succ_le_succ hij, by simp [lastIdxFrom, hj]⟩

theorem lastIdxFrom_of_last (q : String) (hs : List String) (i : Nat)
    (hi : hs[i]? = some q) (hlast : ∀ k, i < k → hs[k]? ≠ some q) :
    lastIdxFrom q hs = some i := by
  obtain ⟨j, hij, hj⟩ := lastIdxFrom_lower q hs i hi
  rcases Nat.lt_or_ge i j with hlt | hge
  · exact absurd (lastIdxFrom_getq q hs j hj) (hlast j hlt)
  · have : j = i := Nat.le_antisymm hge hij
    rw [this] at hj
    exact hj

/-! ## Shared handler lemmas -/

/-- Shape of `combined_process`'s response when the body parsed, the upstream
returned 200, and every Python expression in the handler evaluates without
raising. -/
theorem combined_process_success_eq (data node_config max_items items_val : Json)
    (n : Int) (w : Bool)
    (h1 : pyGet node_config "max_connections" (.num 100) = .ok max_items)
    (h2 : pyGet data "items" (.arr []) = .ok items_val)
    (h3 : pyLen items_val = .ok n)
    (h4 : pyLe (.num n) max_items = .ok w) :
    combined_process (.ok data) (.response 200 node_config) =
      (.obj [("success", .bool true),
             ("result", .obj [("data", data),
                              ("max_items_allowed", max_items),
                              ("items_processed", .num n),
                              ("within_limits", .bool w)]),
             ("node_config_used", node_config)],
       200) := by
  simp [combined_process, h1, h2, h3, h4]

/-! ## Claim C1 -/

/-- C1: for a submitted JSON body whose `items` array has length `L` and an
upstream configuration whose numeric limit is `M` (the value `.get` extracts
from `max_connections`, with the fixed default 100 when the field is absent),
the `within_limits` field of the combined-process result is `true` iff
`L ≤ M`. -/
theorem combined_within_limits_iff (data node_config : Json) (items : List Json)
    (M : Int)
    (hitems : pyGet data "items" (.arr []) = .ok (.arr items))
    (hmax : pyGet node_config "max_connections" (.num 100) = .ok (.num M)) :
    ∃ processed : Json,
      ((combined_process (.ok data) (.response 200 node_config)).1).lookup "result"
          = some processed
      ∧ (processed.lookup "within_limits" = some (.bool true)
          ↔ (items.length : Int) ≤ M) := by
  have h := combined_process_success_eq data node_config (.num M) (.arr items)
    (items.length : Int) (decide ((items.length : Int) ≤ M)) hmax hitems rfl rfl
  refine ⟨.obj [("data", data), ("max_items_allowed", .num M),
                ("items_processed", .num (items.length : Int)),
                ("within_limits", .bool (decide ((items.length : Int) ≤ M)))],
          ?_, ?_⟩
  · rw [h]
    rfl
  · have hcomp : (Json.obj [("data", data), ("max_items_allowed", .num M),
        ("items_processed", .num (items.length : Int)),
        ("within_limits", .bool (decide ((items.length : Int) ≤ M)))]).lookup
          "within_limits"
        = some (.bool (decide ((items.length : Int) ≤ M))) := rfl
    rw [hcomp]
    simp only [Option.some.injEq, Json.bool.injEq, decide_eq_true_eq]

/-- Witness for C1: two items against a configuration with no
`max_connections` field, so the default limit 100 applies and 2 ≤ 100. -/
theorem combined_within_limits_iff_witness :
    ∃ processed : Json,
      ((combined_process (.ok (.obj [("items", .arr [.null, .null])]))
          (.response 200 (.obj []))).1).lookup "result" = some processed
      ∧ (processed.lookup "within_limits" = some (.bool true)
          ↔ (([(.null : Json), .null].length : Int) ≤ (100 : Int))) :=
  combined_within_limits_iff (.obj [("items", .arr [.null, .null])]) (.obj [])
    [.null, .null] 100 rfl rfl

/-! ## Claim C8 -/

/-- C8: on every successful run, the combined-process response carries the
computed summary (echoed input `data`, limit used, item count, within-limits
flag) and, next to it under `node_config_used`, the raw upstream configuration
document unchanged. -/
theorem combined_success_echoes_raw_config (data node_config max_items items_val : Json)
    (n : Int) (w : Bool)
    (h1 : pyGet node_config "max_connections" (.num 100) = .ok max_items)
    (h2 : pyGet data "items" (.arr []) = .ok items_val)
    (h3 : pyLen items_val = .ok n)
    (h4 : pyLe (.num n) max_items = .ok w) :
    combined_process (.ok data) (.response 200 node_config) =
      (.obj [("success", .bool true),
             ("result", .obj [("data", data),
                              ("max_items_allowed", max_items),
                              ("items_processed", .num n),
                              ("within_limits", .bool w)]),
             ("node_config_used", node_config)],
       200)
    ∧ ((combined_process (.ok data) (.response 200 node_config)).1).lookup
        "node_config_used" = some node_config := by
  have h := combined_process_success_eq data node_config max_items items_val n w h1 h2 h3 h4
  refine ⟨h, ?_⟩
  rw [h]
  rfl

/-- Witness for C8: one item against a 2-item limit plus an extra
configuration field, echoed back untouched. -/
theorem combined_success_echoes_raw_config_witness :
    combined_process (.ok (.obj [("items", .arr [.num 7])]))
        (.response 200 (.obj [("max_connections", .num 2), ("mode", .str "prod")])) =
      (.obj [("success", .bool true),
             ("result", .obj [("data", .obj [("items", .arr [.num 7])]),
                              ("max_items_allowed", .num 2),
                              ("items_processed", .num 1),
                              ("within_limits", .bool true)]),
             ("node_config_used",
              .obj [("max_connections", .num 2), ("mode", .str "prod")])],
       200)
    ∧ ((combined_process (.ok (.obj [("items", .arr [.num 7])]))
        (.response 200 (.obj [("max_connections", .num 2), ("mode", .str "prod")]))).1).lookup
        "node_config_used"
        = some (.obj [("max_connections", .num 2), ("mode", .str "prod")]) :=
  combined_success_echoes_raw_config (.obj [("items", .arr [.num 7])])
    (.obj [("max_connections", .num 2), ("mode", .str "prod")])
    (.num 2) (.arr [.num 7]) 1 true rfl rfl rfl rfl

/-! ## Claim C2 -/

/-- C2: for every upstream 200 response, the configuration-retrieval endpoint
returns HTTP 200 with `success: true` and the upstream JSON embedded verbatim
under `node_config` (no field added, removed, or altered). -/
theorem get_node_config_success_passthrough (status : Nat) (body : Json)
    (h : status = 200) :
    get_node_config (.response status body) =
      (.obj [("success", .bool true), ("node_config", body)], 200) := by
  subst h
  rfl

/-- Witness for C2 at a concrete upstream document. -/
theorem get_node_config_success_passthrough_witness :
    get_node_config (.response 200
        (.obj [("max_connections", .num 5), ("env", .str "prod")])) =
      (.obj [("success", .bool true),
             ("node_config", .obj [("max_connections", .num 5), ("env", .str "prod")])],
       200) :=
  get_node_config_success_passthrough 200
    (.obj [("max_connections", .num 5), ("env", .str "prod")]) rfl

/-! ## Claim C4 -/

/-- C4: for an upstream non-200 reply the endpoint returns `success: false`
with the upstream's (non-200) status; for a raised request exception it
returns `success: false` with the connection error message and status 503,
also non-200. -/
theorem get_node_config_failure_nonsuccess (status : Nat) (body : Json)
    (msg : String) (h : status ≠ 200) :
    (get_node_config (.response status body) =
        (.obj [("success", .bool false),
               ("error", .str ("Node.js respondió con status " ++ toString status))],
         status)
      ∧ status ≠ 200)
    ∧ get_node_config (.exception msg) =
        (.obj [("success", .bool false),
               ("error", .str ("Error al conectar con Node.js: " ++ msg))], 503)
    ∧ (503 : Nat) ≠ 200 := by
  refine ⟨⟨?_, h⟩, rfl, by decide⟩
  simp [get_node_config, h]

/-- Witness for C4 at upstream status 404 and a connection error. -/
theorem get_node_config_failure_nonsuccess_witness :
    (get_node_config (.response 404 (.obj [])) =
        (.obj [("success", .bool false),
               ("error", .str ("Node.js respondió con status " ++ toString 404))],
         404)
      ∧ 404 ≠ 200)
    ∧ get_node_config (.exception "Connection refused") =
        (.obj [("success", .bool false),
               ("error", .str ("Error al conectar con Node.js: " ++ "Connection refused"))],
         503)
    ∧ (503 : Nat) ≠ 200 :=
  get_node_config_failure_nonsuccess 404 (.obj []) "Connection refused" (by decide)

/-! ## Claim C3 -/

/-- C3: for every non-empty sheet the first row becomes the headers, the
success envelope is attached, and each subsequent row becomes the
header-keyed dictionary `rowDict headers row`.  In that dictionary a header
position at or beyond the row's length contributes the empty string, and a
header position carrying the rightmost occurrence of its name is paired with
the row cell at that same position. -/
theorem sheet_flatten_headers_positional (title : String) (headers : List String)
    (rows : List (List String)) :
    get_sheet_data title (headers :: rows) =
      .ok title headers (rows.map fun row => rowDict headers row)
        (.obj [("EsError", .bool false), ("ErrorCode", .str "0"),
               ("Message", .str "Operación exitosa"), ("Result", .str "OK")])
        rows.length
    ∧ (∀ (row : List String) (i : Nat) (h : String), headers[i]? = some h →
        row.length ≤ i → rowDict headers row h = some "")
    ∧ (∀ (row : List String) (i : Nat) (h : String), headers[i]? = some h →
        (∀ k : Nat, i < k → headers[k]? ≠ some h) →
        rowDict headers row h = some (cellAt row i)) := by
  refine ⟨rfl, ?_, ?_⟩
  · intro row i h hi hlen
    obtain ⟨j, hij, hj⟩ := lastIdxFrom_lower h headers i hi
    rw [rowDict_lookup, hj]
    have hnone : row[j]? = none := List.getElem?_len_le (le_trans hlen hij)
    simp [cellAt, hnone]
  · intro row i h hi hlast
    rw [rowDict_lookup, lastIdxFrom_of_last h headers i hi hlast]

/-- Witness for C3: a sheet with headers `a`, `b` and the single short row
`[x]` — header `b` is beyond the row's length and maps to `""`, while `a` is
paired with the cell at its own position. -/
theorem sheet_flatten_headers_positional_witness :
    rowDict ["a", "b"] ["x"] "b" = some ""
    ∧ rowDict ["a", "b"] ["x"] "a" = some (cellAt ["x"] 0) := by
  have h := sheet_flatten_headers_positional "ws" ["a", "b"] [["x"]]
  refine ⟨h.2.1 ["x"] 1 "b" rfl (by decide), h.2.2 ["x"] 0 "a" rfl ?_⟩
  intro k hk
  cases k with
  | zero => exact absurd hk (by decide)
  | succ k' =>
    cases k' with
    | zero => decide
    | succ k'' =>
      have hnone : (["a", "b"] : List String)[k'' + 2]? = none :=
        List.getElem?_len_le (Nat.le_add_left 2 k'')
      rw [hnone]
      exact fun hc => Option.noConfusion hc

/-! ## Claim C10 -/

/-- C10: a header name occurring at several positions is bound to the cell at
its rightmost occurrence, and row cells at positions past the header count
are silently discarded — the dictionary built from a row coincides with the
one built from the row truncated to the header count. -/
theorem rowDict_last_occurrence_and_discard :
    (∀ (headers row : List String) (i : Nat) (h : String), headers[i]? = some h →
      ∃ j : Nat, i ≤ j ∧ headers[j]? = some h
        ∧ (∀ k : Nat, j < k → headers[k]? ≠ some h)
        ∧ rowDict headers row h = some (cellAt row j))
    ∧ (∀ (headers row : List String) (q : String),
        rowDict headers row q = rowDict headers (row.take headers.length) q) := by
  constructor
  · intro headers row i h hi
    obtain ⟨j, hij, hj⟩ := lastIdxFrom_lower h headers i hi
    exact ⟨j, hij, lastIdxFrom_getq h headers j hj,
           lastIdxFrom_maximal h headers j hj,
           by rw [rowDict_lookup, hj]⟩
  · intro headers row q
    rw [rowDict_lookup, rowDict_lookup]
    cases hj : lastIdxFrom q headers with
    | none => rfl
    | some j =>
      have hjlt : j < headers.length := by
        have hget := lastIdxFrom_getq q headers j hj
        rw [List.getElem?_eq_some] at hget
        exact hget.1
      have htake : (row.take headers.length)[j]? = row[j]? := by
        rw [List.getElem?_take]
        exact if_pos hjlt
      simp [cellAt, htake]

/-- Witness for C10: duplicated header `a` over row `[x, y]` binds to the
rightmost cell `y`, and a row cell past the single header is discarded. -/
theorem rowDict_last_occurrence_and_discard_witness :
    rowDict ["a", "a"] ["x", "y"] "a" = some "y"
    ∧ rowDict ["a"] ["x", "zzz"] "a" = rowDict ["a"] (["x", "zzz"].take 1) "a" := by
  constructor
  · obtain ⟨j, hij, hget, hmax, hdict⟩ :=
      rowDict_last_occurrence_and_discard.1 ["a", "a"] ["x", "y"] 0 "a" rfl
    have hj1 : j = 1 := by
      rcases Nat.lt_or_ge j 2 with hlt | hge
      · match j, hlt with
        | 0, _ => exact absurd rfl (hmax 1 (by decide))
        | 1, _ => rfl
      · rw [List.getElem?_len_le hge] at hget
        cases hget
    subst hj1
    exact hdict
  · exact rowDict_last_occurrence_and_discard.2 ["a"] ["x", "zzz"] "a"

/-! ## Claim C5 -/

/-- C5 counterexample: the service's second scope is the full Drive read-only
scope, not a Drive *metadata* read-only scope; the metadata scope URL does
not occur in the scope list at all. -/
theorem sheets_scope_not_metadata :
    (GoogleSheetsService.init "credentials.json").scopes
        = [spreadsheetsReadonlyScope, driveReadonlyScope]
    ∧ driveMetadataReadonlyScope ∉ (GoogleSheetsService.init "credentials.json").scopes
    ∧ driveReadonlyScope ≠ driveMetadataReadonlyScope := by
  refine ⟨rfl, ?_, ?_⟩
  · decide
  · decide

/-- C5 amended: the service is initialized with the credential file path, a
null client, and exactly two read-only scopes — spreadsheet read-only and the
full Drive read-only scope. -/
theorem sheets_service_init_two_readonly_scopes (f : String) :
    (GoogleSheetsService.init f).credentials_file = f
    ∧ (GoogleSheetsService.init f).client = none
    ∧ (GoogleSheetsService.init f).scopes
        = [spreadsheetsReadonlyScope, driveReadonlyScope]
    ∧ (GoogleSheetsService.init f).scopes.length = 2
    ∧ spreadsheetsReadonlyScope
        = "https://www.googleapis.com/auth/spreadsheets" ++ ".readonly"
    ∧ driveReadonlyScope = "https://www.googleapis.com/auth/drive" ++ ".readonly" := by
  refine ⟨rfl, rfl, rfl, rfl, ?_, ?_⟩
  · decide
  · decide

/-! ## Claim C6 -/

/-- C6 counterexample: the configuration endpoint's reply is not the
four-field envelope — its success reply has exactly the keys `success` and
`node_config`, with no error-flag, error-code, message, or result field of
the `MKTResponse` shape. -/
theorem get_node_config_envelope_not_four_fields :
    (get_node_config (.response 200 (.obj []))).1.keys = ["success", "node_config"]
    ∧ (get_node_config (.response 200 (.obj []))).1.lookup "EsError" = none
    ∧ (get_node_config (.response 200 (.obj []))).1.lookup "ErrorCode" = none
    ∧ (get_node_config (.response 200 (.obj []))).1.lookup "Message" = none
    ∧ (get_node_config (.response 200 (.obj []))).1.lookup "Result" = none :=
  ⟨rfl, rfl, rfl, rfl, rfl⟩

/-- C6 amended: the response constructors `MKTResponse.success` and
`MKTResponse.error` do produce the uniform four-field envelope, with the
error flag false resp. true; the endpoints, however, answer with ad-hoc
`success`-keyed envelopes rather than this four-field shape. -/
theorem mkt_envelope_four_fields (result message error_code message2 result2 : Json) :
    (MKTResponse.success result message).to_dict.keys
        = ["EsError", "ErrorCode", "Message", "Result"]
    ∧ (MKTResponse.error error_code message2 result2).to_dict.keys
        = ["EsError", "ErrorCode", "Message", "Result"]
    ∧ (MKTResponse.success result message).to_dict.lookup "EsError"
        = some (.bool false)
    ∧ (MKTResponse.error error_code message2 result2).to_dict.lookup "EsError"
        = some (.bool true)
    ∧ (MKTResponse.success result message).EsError = false
    ∧ (MKTResponse.error error_code message2 result2).EsError = true :=
  ⟨rfl, rfl, rfl, rfl, rfl, rfl⟩

/-! ## Claim C7 -/

/-- C7 counterexample: a malformed local body (`data = None`, as produced by a
POSTed `null`) hits `combined_process`'s own `except` clause, which answers
with the exception's text `str(e)` — not with the generic handler's fixed
message. -/
theorem combined_malformed_input_echoes_exception :
    combined_process (.ok .null) (.response 200 (.obj [])) =
      (.obj [("success", .bool false),
             ("error", .str "\x27NoneType\x27 object has no attribute \x27get\x27")],
       500)
    ∧ ("\x27NoneType\x27 object has no attribute \x27get\x27" : String)
        ≠ "Error inesperado en el servidor"
    ∧ (combined_process (.ok .null) (.response 200 (.obj []))).1.lookup "error"
        ≠ (handle_exception "\x27NoneType\x27 object has no attribute \x27get\x27").1.lookup
            "error" := by
  refine ⟨rfl, by decide, ?_⟩
  intro hcontra
  have hsome := Option.some.inj hcontra
  have hstr := Json.str.inj hsome
  exact absurd hstr (by decide)

/-- C7 amended: every exception that reaches the application level is
answered by `handle_exception` with HTTP 500 and a fixed generic message,
independent of the exception's text; the combined-process endpoint, however,
catches its own exceptions and answers with `str(e)`, so its malformed-input
failures carry the exception text instead of the generic message. -/
theorem handle_exception_generic_message (e1 e2 : String) :
    handle_exception e1 =
      (.obj [("success", .bool false),
             ("error", .str "Error inesperado en el servidor")], 500)
    ∧ handle_exception e1 = handle_exception e2
    ∧ combined_process (.ok .null) (.response 200 (.obj [])) =
        (.obj [("success", .bool false),
               ("error", .str "\x27NoneType\x27 object has no attribute \x27get\x27")],
         500) :=
  ⟨rfl, rfl, rfl⟩

/-! ## Claim C9 -/

/-- C9: with the process state (the sheets client holder) threaded
explicitly, both handlers leave the state untouched, and their responses do
not depend on it — runs from any two states on the same request and upstream
outcome produce identical responses. -/
theorem handlers_stateless_deterministic (σ σ' : AppState)
    (body : Except String Json) (upstream : UpstreamResult) :
    (get_node_config_run σ upstream).1 = σ
    ∧ (combined_process_run σ body upstream).1 = σ
    ∧ (get_node_config_run σ upstream).2 = (get_node_config_run σ' upstream).2
    ∧ (combined_process_run σ body upstream).2
        = (combined_process_run σ' body upstream).2 :=
  ⟨rfl, rfl, rfl, rfl⟩
